import Mathlib

/-!
Verification development for the license-validation and hardware-fingerprinting
core of the Paksa AI Assistant repository (app/core/hardware.py and
app/core/license.py), as a shallow embedding in Lean 4.

Modelling conventions:
- Machine integers are Nat with explicit reduction modulo 2^32 where the
  SHA-256 arithmetic overflows.
- Python functions that can raise are embedded as functions into
  Except PyErr, where PyErr enumerates the exception classes the code can
  actually raise.
- The ambient machine (outputs of the platform probes, uuid.getnode, fresh
  uuid.uuid4 draws, platform attributes) is a Machine record passed
  explicitly; environment variables and the clock are passed explicitly.
- Timestamps are modelled as Nat counted in days, the only timedelta unit
  the code uses; datetime.isoformat and datetime.fromisoformat are modelled
  as the decimal encoding of that Nat and its parse, which preserves the two
  properties the code relies on: the encoding round-trips and the order of
  timestamps.
-/

/-- Lowercase hex digit for a value below 16. -/
def hexChar (n : Nat) : Char :=
  match n with
  | 0 => '0' | 1 => '1' | 2 => '2' | 3 => '3' | 4 => '4'
  | 5 => '5' | 6 => '6' | 7 => '7' | 8 => '8' | 9 => '9'
  | 10 => 'a' | 11 => 'b' | 12 => 'c' | 13 => 'd' | 14 => 'e'
  | _ => 'f'

/-- Two-digit lowercase hex rendering of a byte, Python format spec 02x. -/
def hex2 (n : Nat) : String :=
  String.mk [hexChar (n / 16 % 16), hexChar (n % 16)]

/-- Eight-digit lowercase hex rendering of a 32-bit word. -/
def hex8 (n : Nat) : String :=
  String.mk [hexChar (n / 16 ^ 7 % 16), hexChar (n / 16 ^ 6 % 16),
             hexChar (n / 16 ^ 5 % 16), hexChar (n / 16 ^ 4 % 16),
             hexChar (n / 16 ^ 3 % 16), hexChar (n / 16 ^ 2 % 16),
             hexChar (n / 16 % 16), hexChar (n % 16)]

/-- Right rotation of a 32-bit word (value kept below 2^32). -/
def rotr32 (k x : Nat) : Nat :=
  ((x >>> k) ||| ((x <<< (32 - k)) &&& 0xFFFFFFFF))

/-- The 64 SHA-256 round constants, in eight groups of eight. -/
def shaK : List Nat :=
  [0x428a2f98, 0x71374491, 0xb5c0fbcf, 0xe9b5dba5,
   0x3956c25b, 0x59f111f1, 0x923f82a4, 0xab1c5ed5] ++
  [0xd807aa98, 0x12835b01, 0x243185be, 0x550c7dc3,
   0x72be5d74, 0x80deb1fe, 0x9bdc06a7, 0xc19bf174] ++
  [0xe49b69c1, 0xefbe4786, 0x0fc19dc6, 0x240ca1cc,
   0x2de92c6f, 0x4a7484aa, 0x5cb0a9dc, 0x76f988da] ++
  [0x983e5152, 0xa831c66d, 0xb00327c8, 0xbf597fc7,
   0xc6e00bf3, 0xd5a79147, 0x06ca6351, 0x14292967] ++
  [0x27b70a85, 0x2e1b2138, 0x4d2c6dfc, 0x53380d13,
   0x650a7354, 0x766a0abb, 0x81c2c92e, 0x92722c85] ++
  [0xa2bfe8a1, 0xa81a664b, 0xc24b8b70, 0xc76c51a3,
   0xd192e819, 0xd6990624, 0xf40e3585, 0x106aa070] ++
  [0x19a4c116, 0x1e376c08, 0x2748774c, 0x34b0bcb5,
   0x391c0cb3, 0x4ed8aa4a, 0x5b9cca4f, 0x682e6ff3] ++
  [0x748f82ee, 0x78a5636f, 0x84c87814, 0x8cc70208,
   0x90befffa, 0xa4506ceb, 0xbef9a3f7, 0xc67178f2]

/-- Working state of the SHA-256 compression function: eight 32-bit words. -/
structure ShaState where
  a : Nat
  b : Nat
  c : Nat
  d : Nat
  e : Nat
  f : Nat
  g : Nat
  h : Nat

/-- The SHA-256 initial hash value. -/
def shaInit : ShaState :=
  ⟨0x6a09e667, 0xbb67ae85, 0x3c6ef372, 0xa54ff53a,
   0x510e527f, 0x9b05688c, 0x1f83d9ab, 0x5be0cd19⟩

/-- One round of the SHA-256 compression function on a (word, constant) pair. -/
def shaRound (s : ShaState) (wk : Nat × Nat) : ShaState :=
  let s1 := (rotr32 6 s.e) ^^^ (rotr32 11 s.e) ^^^ (rotr32 25 s.e)
  let ch := (s.e &&& s.f) ^^^ ((s.e ^^^ 0xFFFFFFFF) &&& s.g)
  let t1 := (s.h + s1 + ch + wk.2 + wk.1) % 4294967296
  let s0 := (rotr32 2 s.a) ^^^ (rotr32 13 s.a) ^^^ (rotr32 22 s.a)
  let mj := (s.a &&& s.b) ^^^ (s.a &&& s.c) ^^^ (s.b &&& s.c)
  let t2 := (s0 + mj) % 4294967296
  ⟨(t1 + t2) % 4294967296, s.a, s.b, s.c, (s.d + t1) % 4294967296, s.e, s.f, s.g⟩

/-- Fold the 64 compression rounds over the zipped schedule and constants. -/
def shaRounds : List (Nat × Nat) → ShaState → ShaState
  | [], s => s
  | wk :: rest, s => shaRounds rest (shaRound s wk)

/-- Convert big-endian byte quadruples into 32-bit words. -/
def bytesToWords : List Nat → List Nat
  | b0 :: b1 :: b2 :: b3 :: rest =>
      (((b0 * 256 + b1) * 256 + b2) * 256 + b3) :: bytesToWords rest
  | _ => []

/-- Next word of the SHA-256 message schedule from the words so far. -/
def shaNextWord (w : List Nat) : Nat :=
  let t := w.length
  let w2 := w.getD (t - 2) 0
  let w7 := w.getD (t - 7) 0
  let w15 := w.getD (t - 15) 0
  let w16 := w.getD (t - 16) 0
  let sig0 := (rotr32 7 w15) ^^^ (rotr32 18 w15) ^^^ (w15 >>> 3)
  let sig1 := (rotr32 17 w2) ^^^ (rotr32 19 w2) ^^^ (w2 >>> 10)
  (sig1 + w7 + sig0 + w16) % 4294967296

/-- Extend the 16 block words with k further schedule words. -/
def shaExtend : Nat → List Nat → List Nat
  | 0, w => w
  | k + 1, w => shaExtend k (w ++ [shaNextWord w])

/-- Process one 64-byte block into the running hash state. -/
def shaBlock (hs : ShaState) (block : List Nat) : ShaState :=
  let w := shaExtend 48 (bytesToWords block)
  let s := shaRounds (w.zip shaK) hs
  ⟨(hs.a + s.a) % 4294967296, (hs.b + s.b) % 4294967296,
   (hs.c + s.c) % 4294967296, (hs.d + s.d) % 4294967296,
   (hs.e + s.e) % 4294967296, (hs.f + s.f) % 4294967296,
   (hs.g + s.g) % 4294967296, (hs.h + s.h) % 4294967296⟩

/-- Big-endian 8-byte rendering of a bit length. -/
def be64 (n : Nat) : List Nat :=
  [(n >>> 56) &&& 255, (n >>> 48) &&& 255, (n >>> 40) &&& 255,
   (n >>> 32) &&& 255, (n >>> 24) &&& 255, (n >>> 16) &&& 255,
   (n >>> 8) &&& 255, n &&& 255]

/-- SHA-256 padding: append 0x80, zeros to 56 mod 64, and the bit length. -/
def shaPad (msg : List Nat) : List Nat :=
  msg ++ 0x80 :: List.replicate ((119 - msg.length % 64) % 64) 0
      ++ be64 (8 * msg.length)

/-- Split a padded message into 64-byte blocks, driven by a block counter. -/
def shaChunksGo : Nat → List Nat → List (List Nat)
  | 0, _ => []
  | _ + 1, [] => []
  | k + 1, l => l.take 64 :: shaChunksGo k (l.drop 64)

/-- All 64-byte blocks of a padded message. -/
def shaChunks (l : List Nat) : List (List Nat) :=
  shaChunksGo (l.length / 64 + 1) l

/-- Fold all blocks through the compression function. -/
def shaBlocks : List (List Nat) → ShaState → ShaState
  | [], hs => hs
  | b :: rest, hs => shaBlocks rest (shaBlock hs b)

/-- SHA-256 digest of a byte sequence, rendered as lowercase hex. -/
def sha256HexBytes (msg : List Nat) : String :=
  let hs := shaBlocks (shaChunks (shaPad msg)) shaInit
  hex8 hs.a ++ hex8 hs.b ++ hex8 hs.c ++ hex8 hs.d
    ++ hex8 hs.e ++ hex8 hs.f ++ hex8 hs.g ++ hex8 hs.h

/-- UTF-8 encoding of one code point. -/
def charUtf8 (c : Char) : List Nat :=
  let n := c.toNat
  if n < 0x80 then [n]
  else if n < 0x800 then [0xC0 + n / 64, 0x80 + n % 64]
  else if n < 0x10000 then
    [0xE0 + n / 4096, 0x80 + (n / 64) % 64, 0x80 + n % 64]
  else
    [0xF0 + n / 262144, 0x80 + (n / 4096) % 64, 0x80 + (n / 64) % 64,
     0x80 + n % 64]

/-- UTF-8 encoding of a string, modelling the Python str.encode method. -/
def utf8Encode (s : String) : List Nat :=
  s.data.foldr (fun c acc => charUtf8 c ++ acc) []

/-- Model of hashlib.sha256 composed with str.encode and hexdigest. -/
def sha256Hex (s : String) : String :=
  sha256HexBytes (utf8Encode s)

/-- The decimal digit character of a value below 10, by code point. -/
def digitChar (d : Nat) : Char :=
  Char.ofNat (48 + d)

/-- Inverse of digitChar on the ten digit characters, by code point. -/
def charDigit (c : Char) : Option Nat :=
  if 48 ≤ c.toNat then
    if c.toNat ≤ 57 then some (c.toNat - 48) else Option.none
  else Option.none

/-- Little-endian decimal digits of n, driven by a fuel argument so that the
recursion is structural and kernel-reducible; fuel at least n suffices. -/
def toDigitsRev : Nat → Nat → List Nat
  | 0, _ => []
  | fuel + 1, n => if n = 0 then [] else n % 10 :: toDigitsRev fuel (n / 10)

/-- Value of a little-endian digit list. -/
def valLE : List Nat → Nat
  | [] => 0
  | d :: ds => d + 10 * valLE ds

/-- Decimal rendering of a Nat. -/
def decRepr (n : Nat) : String :=
  if n = 0 then "0"
  else String.mk (((toDigitsRev n n).reverse).map digitChar)

/-- Read every character as a decimal digit, failing on the first non-digit. -/
def parseDigits : List Char → Option (List Nat)
  | [] => some []
  | c :: cs =>
    match charDigit c, parseDigits cs with
    | some d, some ds => some (d :: ds)
    | _, _ => none

/-- Parse a non-empty all-digit character list as a decimal Nat. -/
def parseNatChars : List Char → Option Nat
  | [] => none
  | cs =>
    match parseDigits cs with
    | some ds => some (valLE ds.reverse)
    | none => none

/-! ## Python values and exceptions -/

/-- The Python values the license core manipulates: strings, ints, booleans,
None, and dictionaries with string keys in insertion order. -/
inductive PyVal where
  | str (s : String)
  | int (n : Int)
  | bool (b : Bool)
  | none
  | dict (kvs : List (String × PyVal))

/-- The exception classes the embedded code can raise. -/
inductive PyErr where
  | nameError (n : String)
  | licenseError (msg : String)
  | keyError (k : String)
  | valueError (msg : String)
  | typeError (msg : String)

/-- Python str of an exception, as used by the f-string handlers. -/
def pyErrStr : PyErr → String
  | .nameError n => "name \x27" ++ n ++ "\x27 is not defined"
  | .licenseError msg => msg
  | .keyError k => "\x27" ++ k ++ "\x27"
  | .valueError msg => msg
  | .typeError msg => msg

/-- Whether an exception is a LicenseError, the class the first except
clause of check_license catches. -/
def isLicErr : PyErr → Bool
  | .licenseError _ => true
  | _ => false

/-- Python dict lookup on an insertion-ordered association list; a repeated
key keeps the last binding, as a Python dict literal does. -/
def dictGet : List (String × PyVal) → String → Option PyVal
  | [], _ => Option.none
  | (k1, v) :: rest, k =>
    match dictGet rest k with
    | some r => some r
    | Option.none => if k1 = k then some v else Option.none

/-- dict.get on a PyVal known to be a dict. -/
def pyGet (d : PyVal) (k : String) : Option PyVal :=
  match d with
  | .dict kvs => dictGet kvs k
  | _ => Option.none

/-- Subscript access d[k]: a missing key raises KeyError. -/
def pyGetItem (d : PyVal) (k : String) : Except PyErr PyVal :=
  match pyGet d k with
  | some v => .ok v
  | Option.none => .error (.keyError k)

/-- Python truthiness of a value. -/
def pyTruthy : PyVal → Bool
  | .str s => s ≠ ""
  | .int n => n ≠ 0
  | .bool b => b
  | .none => false
  | .dict kvs => !kvs.isEmpty

/-- Python equality of a str with an arbitrary value: equal exactly when the
other value is the same str (str never equals None, ints or booleans). -/
def pyEqStr (s : String) (v : PyVal) : Bool :=
  match v with
  | .str t => s = t
  | _ => false

/-- Remove every binding of a key; models dict.pop(k, None) on a copy. -/
def dictPop (kvs : List (String × PyVal)) (k : String) :
    List (String × PyVal) :=
  kvs.filter (fun kv => kv.1 != k)

/-- JSON string escaping for the quote and backslash characters; the data the
program serializes contains no control characters. -/
def jsonEscape (s : String) : String :=
  String.mk (s.data.foldr
    (fun c acc =>
      if c = '"' then '\\' :: '"' :: acc
      else if c = '\\' then '\\' :: '\\' :: acc
      else c :: acc) [])

/-- Lexicographic comparison of character lists by code point, the order
Python sorted uses on strings. -/
def charsLt : List Char → List Char → Bool
  | [], [] => false
  | [], _ :: _ => true
  | _ :: _, [] => false
  | a :: as, b :: bs =>
    if a.toNat < b.toNat then true
    else if b.toNat < a.toNat then false
    else charsLt as bs

/-- String comparison by code points. -/
def strLt (a b : String) : Bool :=
  charsLt a.data b.data

/-- Insert a pair into a key-sorted list of pairs. -/
def insertPair {α : Type} (p : String × α) :
    List (String × α) → List (String × α)
  | [] => [p]
  | q :: rest =>
    if strLt p.1 q.1 then p :: q :: rest else q :: insertPair p rest

/-- Sort pairs by key, modelling sort_keys=True of json.dumps. -/
def sortPairs {α : Type} : List (String × α) → List (String × α)
  | [] => []
  | p :: rest => insertPair p (sortPairs rest)

/-- json.dumps with sort_keys=True and default separators, with the nesting
depth driven by a fuel argument so the recursion through the dictionary
entries is structural; the records the program builds nest two levels. -/
def jsonDumpsF : Nat → PyVal → String
  | _, .str s => "\"" ++ jsonEscape s ++ "\""
  | _, .int n => toString n
  | _, .bool b => if b then "true" else "false"
  | _, .none => "null"
  | 0, .dict _ => ""
  | fuel + 1, .dict kvs =>
    "\x7b" ++
      String.intercalate ", "
        ((sortPairs kvs).map
          (fun kv => "\"" ++ jsonEscape kv.1 ++ "\": " ++ jsonDumpsF fuel kv.2))
      ++ "\x7d"

/-- json.dumps with sort_keys=True; fuel 32 covers any nesting the program
can build. -/
def jsonDumps (v : PyVal) : String :=
  jsonDumpsF 32 v

/-! ## app/core/hardware.py -/

/-- The ambient machine a call runs on: the outcome of each platform probe
and the platform attributes the module reads. A probe field is none when the
subprocess call raised or its output did not match, in which case the
corresponding function takes its fallback branch. -/
structure Machine where
  macProbe : Option String
  uuidNode : Nat
  cpuProbe : Option String
  processor : String
  cpuCount : Int
  diskProbe : Option String
  freshUuid : String
  platform : String
  system : String
  node : String
  release : String
  version : String
  machine : String
  totalRam : Int
  hostname : String
  fqdn : String

/-- get_mac_address: the regex match from getmac or ifconfig output when the
probe succeeds, otherwise the pseudo-MAC built from uuid.getnode by shifting
the node value by 5,4,3,2,1,0 bits (the shift amounts the source literally
uses) and formatting each masked byte as two lowercase hex digits joined by
colons. -/
def get_mac_address (m : Machine) : String :=
  match m.macProbe with
  | some mac => mac
  | Option.none =>
    String.intercalate ":"
      ([5, 4, 3, 2, 1, 0].map (fun e => hex2 ((m.uuidNode >>> e) &&& 0xff)))

/-- get_cpu_id: the platform probe result when it succeeds, otherwise the
SHA-256 digest of the processor description concatenated with the logical
core count. -/
def get_cpu_id (m : Machine) : String :=
  match m.cpuProbe with
  | some s => s
  | Option.none => sha256Hex (m.processor ++ toString m.cpuCount)

/-- get_disk_serial: the stripped probe output when the probe succeeds and is
non-empty, otherwise a freshly generated uuid4 string. -/
def get_disk_serial (m : Machine) : String :=
  match m.diskProbe with
  | some s => if s = "" then m.freshUuid else s
  | Option.none => m.freshUuid

/-- get_system_info: the flat mapping of the fourteen attributes, in the
insertion order of the source dict literal. -/
def get_system_info (m : Machine) : PyVal :=
  .dict [("platform", .str m.platform),
         ("system", .str m.system),
         ("node", .str m.node),
         ("release", .str m.release),
         ("version", .str m.version),
         ("machine", .str m.machine),
         ("processor", .str m.processor),
         ("cpu_count", .int m.cpuCount),
         ("total_ram", .int m.totalRam),
         ("mac_address", .str (get_mac_address m)),
         ("cpu_id", .str (get_cpu_id m)),
         ("disk_serial", .str (get_disk_serial m)),
         ("hostname", .str m.hostname),
         ("fqdn", .str m.fqdn)]

/-- get_hardware_id: the branch on use_system_info. The true branch executes
the statement info_str = json.dumps(system_info, sort_keys=True), but the
module hardware.py never imports json, so that statement raises
NameError at run time; the false branch hashes mac_address:disk_serial. -/
def get_hardware_id (m : Machine) (use_system_info : Bool := true) :
    Except PyErr String :=
  if use_system_info then .error (.nameError "json")
  else .ok (sha256Hex (get_mac_address m ++ ":" ++ get_disk_serial m))

/-- validate_hardware_id: false on an empty (falsy) input, otherwise compares
the input with the current hardware id recomputed with default settings. -/
def validate_hardware_id (m : Machine) (hardware_id : String) :
    Except PyErr Bool :=
  if hardware_id = "" then .ok false
  else
    match get_hardware_id m true with
    | .error e => .error e
    | .ok current_id => .ok (current_id == hardware_id)

/-! ## app/core/license.py -/

/-- Timestamps are Nats counted in days; datetime.isoformat is modelled as
the decimal encoding of the timestamp. -/
def isoformat (t : Nat) : String :=
  decRepr t

/-- datetime.fromisoformat: parses the encoded timestamp back; a non-str
argument raises TypeError and an unparsable string raises ValueError, as the
library function does. -/
def fromisoformat (v : PyVal) : Except PyErr Nat :=
  match v with
  | .str s =>
    match parseNatChars s.data with
    | some n => .ok n
    | Option.none => .error (.valueError ("Invalid isoformat string: " ++ s))
  | _ => .error (.typeError "fromisoformat: argument must be str")

/-- The license manager state after construction: the resolved key and the
cached license data. -/
structure LicenseManager where
  license_key : Option String
  license_data : Option PyVal

/-- The mock mapping _validate_license returns for every non-empty key:
valid, a message, an expiry one year from now, and three feature flags.
It contains no hardware_bound and no hardware_signature key. -/
def mock_license_data (now : Nat) : PyVal :=
  .dict [("valid", .bool true),
         ("message", .str "License is valid"),
         ("expiry_date", .str (isoformat (now + 365))),
         ("features", .dict [("ai_chat", .bool true),
                             ("voice_support", .bool false),
                             ("api_access", .bool true)])]

/-- _validate_license: raises LicenseError for a falsy key (re-wrapped by the
generic except clause into the License validation failed message), and
returns the mock mapping for every other key. -/
def validate_license_key (key : String) (now : Nat) : Except PyErr PyVal :=
  if key = "" then
    .error (.licenseError
      "License validation failed: Invalid license key format")
  else .ok (mock_license_data now)

/-- _generate_license_id: digest of customer name, current time and a fresh
uuid4 token joined by dashes. -/
def generate_license_id (customer_name : String) (now : Nat) (u : String) :
    String :=
  sha256Hex (customer_name ++ "-" ++ isoformat now ++ "-" ++ u)

/-- _get_hardware_signature: digest of the current hardware id; the call
get_hardware_id() runs with the default use_system_info=True. -/
def get_hardware_signature (m : Machine) : Except PyErr String :=
  match get_hardware_id m true with
  | .error e => .error e
  | .ok hardware_id => .ok (sha256Hex hardware_id)

/-- _sign_license: copy the record, pop any signature field, serialize the
rest with sorted keys, append the shared secret (LICENSE_SECRET from the
environment, with the insecure default when unset) and hash. -/
def sign_license (secretEnv : Option String) (license_data : PyVal) : String :=
  let d :=
    match license_data with
    | .dict kvs => PyVal.dict (dictPop kvs "signature")
    | v => v
  let data_str := jsonDumps d
  let secret := secretEnv.getD "your-secret-key-here"
  sha256Hex (data_str ++ secret)

/-- The default feature flags of generate_license. -/
def default_features : PyVal :=
  .dict [("ai_chat", .bool true),
         ("voice_support", .bool false),
         ("api_access", .bool false),
         ("max_requests_per_day", .int 1000)]

/-- Append a binding to a record, modelling d[k] = v on a key not yet
present. -/
def dictSet (d : PyVal) (k : String) (v : PyVal) : PyVal :=
  match d with
  | .dict kvs => .dict (kvs ++ [(k, v)])
  | other => other

/-- generate_license: builds the record of ten fields and then stores the
signature over them. The hardware_signature entry evaluates
_get_hardware_signature, whose get_hardware_id() call raises NameError, so
the whole call raises before any record is returned. -/
def generate_license (secretEnv : Option String) (m : Machine) (now : Nat)
    (u : String) (customer_name customer_email : String)
    (expiry_days : Nat := 365) (max_users : Int := 1)
    (features : Option PyVal := Option.none) : Except PyErr PyVal :=
  let feats :=
    match features with
    | some f => if pyTruthy f then f else default_features
    | Option.none => default_features
  let expiry_date := now + expiry_days
  match get_hardware_signature m with
  | .error e => .error e
  | .ok hwsig =>
    let license_data : PyVal :=
      .dict [("license_id", .str (generate_license_id customer_name now u)),
             ("customer_name", .str customer_name),
             ("customer_email", .str customer_email),
             ("issue_date", .str (isoformat now)),
             ("expiry_date", .str (isoformat expiry_date)),
             ("max_users", .int max_users),
             ("features", feats),
             ("hardware_bound", .bool true),
             ("hardware_signature", .str hwsig),
             ("version", .str "1.0.0")]
    .ok (dictSet license_data "signature"
          (.str (sign_license secretEnv license_data)))

/-- The body of check_license from the license data on: read and parse the
expiry date, compare with now, then the hardware-binding branch, embedding
lines 159 to 170 of license.py. -/
def check_data (data : PyVal) (m : Machine) (now : Nat) :
    Except PyErr (Bool × String) :=
  match pyGetItem data "expiry_date" with
  | .error e => .error e
  | .ok ev =>
    match fromisoformat ev with
    | .error e => .error e
    | .ok expiry_date =>
      if now > expiry_date then .ok (false, "License has expired")
      else if pyTruthy ((pyGet data "hardware_bound").getD (.bool false)) then
        match get_hardware_signature m with
        | .error e => .error e
        | .ok current_signature =>
          if !(pyEqStr current_signature
                ((pyGet data "hardware_signature").getD .none)) then
            .ok (false, "License is not valid for this hardware")
          else .ok (true, "License is valid")
      else .ok (true, "License is valid")

/-- The try block of check_license: validate the key, then run the checks on
the returned data. -/
def check_body (key : String) (m : Machine) (now : Nat) :
    Except PyErr (Bool × String) :=
  match validate_license_key key now with
  | .error e => .error e
  | .ok license_data => check_data license_data m now

/-- The two except clauses of check_license: a LicenseError becomes its
message, any other exception becomes the formatted generic message. -/
def check_handler (e : PyErr) : Except PyErr (Bool × String) :=
  match e with
  | .licenseError msg => .ok (false, msg)
  | e1 => .ok (false, "Error checking license: " ++ pyErrStr e1)

/-- Run a body under handlers, modelling a try statement whose except
clauses may in principle re-raise. -/
def tryCatchPy {α : Type} (body : Except PyErr α)
    (handler : PyErr → Except PyErr α) : Except PyErr α :=
  match body with
  | .ok a => .ok a
  | .error e => handler e

/-- check_license: fail closed without a truthy key, otherwise run the try
block under the two except clauses. -/
def check_license (mgr : LicenseManager) (m : Machine) (now : Nat) :
    Except PyErr (Bool × String) :=
  match mgr.license_key with
  | Option.none => .ok (false, "No license key provided")
  | some k =>
    if k = "" then .ok (false, "No license key provided")
    else tryCatchPy (check_body k m now) check_handler

/-- Python or on optional strings: the left operand when truthy, otherwise
the right operand. -/
def pyOrStr (a b : Option String) : Option String :=
  match a with
  | some s => if s = "" then b else some s
  | Option.none => b

/-- LicenseManager.__init__: resolve the key against the LICENSE_KEY
environment variable, and cache the validation result when the key is
truthy. -/
def initLicenseManager (keyArg envLicenseKey : Option String) (now : Nat) :
    Except PyErr LicenseManager :=
  let key := pyOrStr keyArg envLicenseKey
  match key with
  | Option.none => .ok ⟨key, Option.none⟩
  | some k =>
    if k = "" then .ok ⟨key, Option.none⟩
    else
      match validate_license_key k now with
      | .error e => .error e
      | .ok d => .ok ⟨key, some d⟩

/-! ## Concrete fixtures -/

/-- A concrete machine on which every probe succeeds. -/
def mTest : Machine :=
  ⟨some "00:11:22:33:44:55", 0, some "CPU-0001", "x86_64", 4,
   some "DISK-0001", "uuid-fixed", "Linux-6.0-x86_64", "Linux", "testhost",
   "6.0", "version-1", "x86_64", 8589934592, "testhost", "testhost.local"⟩

/-- A license record whose hardware_bound flag is set and whose stored
hardware signature is not the current machine signature. -/
def hw_bound_record : PyVal :=
  .dict [("hardware_bound", .bool true),
         ("hardware_signature", .str "not-the-current-machine-signature"),
         ("expiry_date", .str "999999")]

/-- A manager configured with a non-empty key and holding the mismatched
hardware-bound record as its cached license data. -/
def mgr_hw : LicenseManager :=
  ⟨some "PAKSA-KEY-123", some hw_bound_record⟩

/-- A small signed license record. -/
def sign_record_a : PyVal :=
  .dict [("customer_email", .str "a@acme.com"),
         ("customer_name", .str "Acme"),
         ("max_users", .int 1),
         ("signature", .str "old")]

/-- The same record with only customer_name mutated. -/
def sign_record_b : PyVal :=
  .dict [("customer_email", .str "a@acme.com"),
         ("customer_name", .str "Bob"),
         ("max_users", .int 1),
         ("signature", .str "old")]

/-! ## Helper lemmas -/

theorem charDigit_digitChar (d : Nat) (h : d < 10) :
    charDigit (digitChar d) = some d := by
  interval_cases d <;> decide

theorem parseDigits_map (L : List Nat) (h : ∀ d ∈ L, d < 10) :
    parseDigits (L.map digitChar) = some L := by
  induction L with
  | nil => rfl
  | cons d ds ih =>
    have hd : d < 10 := h d (List.mem_cons_self d ds)
    have hds : ∀ x ∈ ds, x < 10 := fun x hx => h x (List.mem_cons_of_mem d hx)
    simp [parseDigits, charDigit_digitChar d hd, ih hds]

theorem toDigitsRev_lt (fuel : Nat) : ∀ n d, d ∈ toDigitsRev fuel n → d < 10 := by
  induction fuel with
  | zero => intro n d hd; simp [toDigitsRev] at hd
  | succ fuel ih =>
    intro n d hd
    by_cases h0 : n = 0
    · simp [toDigitsRev, h0] at hd
    · simp only [toDigitsRev, if_neg h0, List.mem_cons] at hd
      rcases hd with h | h
      · subst h; exact Nat.mod_lt n (by omega)
      · exact ih (n / 10) d h

theorem valLE_toDigitsRev (fuel : Nat) :
    ∀ n, n ≤ fuel → valLE (toDigitsRev fuel n) = n := by
  induction fuel with
  | zero => intro n hn; interval_cases n; rfl
  | succ fuel ih =>
    intro n hn
    by_cases h0 : n = 0
    · simp [toDigitsRev, h0, valLE]
    · have hdiv : n / 10 ≤ fuel := by
        have hlt : n / 10 < n := Nat.div_lt_self (Nat.pos_of_ne_zero h0) (by omega)
        omega
      simp only [toDigitsRev, if_neg h0, valLE, ih (n / 10) hdiv]
      omega

theorem toDigitsRev_ne_nil (fuel n : Nat) (h0 : n ≠ 0) (hle : n ≤ fuel) :
    toDigitsRev fuel n ≠ [] := by
  cases fuel with
  | zero => omega
  | succ fuel => simp [toDigitsRev, if_neg h0]

theorem parseNatChars_eq (L : List Char) (ds : List Nat) (hL : L ≠ [])
    (h : parseDigits L = some ds) :
    parseNatChars L = some (valLE ds.reverse) := by
  cases L with
  | nil => exact absurd rfl hL
  | cons c cs => simp [parseNatChars, h]

theorem parseNatChars_decRepr (n : Nat) :
    parseNatChars (decRepr n).data = some n := by
  by_cases h0 : n = 0
  · subst h0; decide
  · have hne : toDigitsRev n n ≠ [] := toDigitsRev_ne_nil n n h0 le_rfl
    have hlt : ∀ d ∈ (toDigitsRev n n).reverse, d < 10 :=
      fun d hd => toDigitsRev_lt n n d (List.mem_reverse.mp hd)
    have hdata : (decRepr n).data =
        ((toDigitsRev n n).reverse).map digitChar := by
      simp [decRepr, h0]
    have hmapne : ((toDigitsRev n n).reverse).map digitChar ≠ [] := by
      simp [hne]
    rw [hdata, parseNatChars_eq _ _ hmapne (parseDigits_map _ hlt),
        List.reverse_reverse, valLE_toDigitsRev n n le_rfl]

theorem fromisoformat_isoformat (t : Nat) :
    fromisoformat (.str (isoformat t)) = .ok t := by
  simp [fromisoformat, isoformat, parseNatChars_decRepr]

theorem filter_idem {α : Type} (p : α → Bool) (l : List α) :
    (l.filter p).filter p = l.filter p := by
  induction l with
  | nil => rfl
  | cons a t ih => cases hp : p a <;> simp [List.filter_cons, hp, ih]

theorem check_data_mock (t : Nat) (m : Machine) (now2 : Nat)
    (h : now2 ≤ t + 365) :
    check_data (mock_license_data t) m now2 = .ok (true, "License is valid") := by
  have h1 : pyGetItem (mock_license_data t) "expiry_date" =
      Except.ok (PyVal.str (isoformat (t + 365))) := rfl
  have h2 : pyGet (mock_license_data t) "hardware_bound" = Option.none := rfl
  simp only [check_data, h1, fromisoformat_isoformat, h2]
  rw [if_neg (by omega)]
  simp [pyTruthy, Option.getD]

theorem check_license_valid (mgr : LicenseManager) (m : Machine) (now : Nat)
    (k : String) (hk : mgr.license_key = some k) (hne : k ≠ "") :
    check_license mgr m now = .ok (true, "License is valid") := by
  have hb : check_body k m now = .ok (true, "License is valid") := by
    simp only [check_body, validate_license_key, if_neg hne]
    exact check_data_mock now m now (by omega)
  simp only [check_license, hk, if_neg hne, hb, tryCatchPy]

theorem check_handler_ok (e : PyErr) : ∃ r, check_handler e = .ok r := by
  cases e <;> exact ⟨_, rfl⟩

/-! ## Claims -/

/-- C1: the claim that get_hardware_id never raises fails on the code. The
false branch does return a value, but the true branch (the default) raises
NameError, because hardware.py calls json.dumps without importing json; the
exception is not swallowed inside any probe and escapes to the caller. -/
theorem C1_probe_crash (m : Machine) :
    (∃ s, get_hardware_id m false = .ok s) ∧
    get_hardware_id m true = .error (.nameError "json") :=
  ⟨⟨_, rfl⟩, rfl⟩

/-- C2: the reflexivity pipeline validate_hardware_id(get_hardware_id())
cannot return true, because get_hardware_id() with its default argument
raises NameError before validate_hardware_id is ever entered, and no call
of get_hardware_id() returns a string at all. -/
theorem C2_reflexivity_raises (m : Machine) :
    (match get_hardware_id m true with
     | .ok hid => validate_hardware_id m hid
     | .error e => .error e) = .error (.nameError "json") ∧
    (∀ s, get_hardware_id m true ≠ .ok s) :=
  ⟨rfl, fun _ h => nomatch h⟩

/-- C3: the false branch of get_hardware_id does return the hex SHA-256
digest of mac_address:disk_serial as claimed, but the true branch never
returns the digest of the sorted-key serialization of the system info:
it raises NameError instead, json being unimported in hardware.py. -/
theorem C3_digest_branches (m : Machine) :
    get_hardware_id m false =
      .ok (sha256Hex (get_mac_address m ++ ":" ++ get_disk_serial m)) ∧
    get_hardware_id m true ≠
      .ok (sha256Hex (jsonDumps (get_system_info m))) :=
  ⟨rfl, fun h => nomatch h⟩

set_option maxRecDepth 1000000 in
/-- C4 counterexample: a manager configured with a hardware-bound license
record whose stored signature is not the current machine signature still
answers (true, License is valid) from check_license, not the claimed
hardware-mismatch failure. -/
theorem C4_counterexample :
    pyGet hw_bound_record "hardware_bound" = some (.bool true) ∧
    check_license mgr_hw mTest 100 = .ok (true, "License is valid") ∧
    check_license mgr_hw mTest 100 ≠
      .ok (false, "License is not valid for this hardware") := by
  refine ⟨rfl, rfl, ?_⟩
  intro h
  rw [show check_license mgr_hw mTest 100 = .ok (true, "License is valid")
      from rfl] at h
  simp at h

/-- C4 amended: storing a hardware-bound license record with a mismatched
hardware signature on the manager does not make check_license fail:
check_license ignores the cached record and re-validates the key, and the
stub validation result carries no hardware_bound key, so the
hardware-mismatch branch is unreachable and the call answers
(true, License is valid) for every non-empty key. -/
theorem C4_amended_ignores_record (mgr : LicenseManager) (m : Machine)
    (now : Nat) (k : String) (R : PyVal) (hk : mgr.license_key = some k)
    (hne : k ≠ "") (hd : mgr.license_data = some R)
    (hhw : pyGet R "hardware_bound" = some (.bool true)) :
    check_license mgr m now = .ok (true, "License is valid") :=
  check_license_valid mgr m now k hk hne

set_option maxRecDepth 1000000 in
theorem C4_witness :
    mgr_hw.license_key = some "PAKSA-KEY-123" ∧ "PAKSA-KEY-123" ≠ "" ∧
    mgr_hw.license_data = some hw_bound_record ∧
    pyGet hw_bound_record "hardware_bound" = some (.bool true) ∧
    check_license mgr_hw mTest 100 = .ok (true, "License is valid") :=
  ⟨rfl, by decide, rfl, rfl,
   C4_amended_ignores_record mgr_hw mTest 100 "PAKSA-KEY-123" hw_bound_record
     rfl (by decide) rfl rfl⟩

/-- C5: with any non-empty license key, check_license answers
(true, License is valid) regardless of the key content: the stub
_validate_license returns the fixed mapping whose expiry is one year ahead
and which has no hardware_bound key, so neither failure branch can fire. -/
theorem C5_stub_validation_always_valid (mgr : LicenseManager) (m : Machine)
    (now : Nat) (k : String) (hk : mgr.license_key = some k) (hne : k ≠ "") :
    check_license mgr m now = .ok (true, "License is valid") ∧
    validate_license_key k now = .ok (mock_license_data now) ∧
    pyGet (mock_license_data now) "hardware_bound" = Option.none ∧
    pyGet (mock_license_data now) "expiry_date" =
      some (.str (isoformat (now + 365))) := by
  refine ⟨check_license_valid mgr m now k hk hne, ?_, rfl, rfl⟩
  simp [validate_license_key, hne]

theorem C5_witness :
    (LicenseManager.mk (some "KEY-1") Option.none).license_key =
      some "KEY-1" ∧ "KEY-1" ≠ "" ∧
    check_license ⟨some "KEY-1", Option.none⟩ mTest 3 =
      .ok (true, "License is valid") :=
  ⟨rfl, by decide,
   (C5_stub_validation_always_valid ⟨some "KEY-1", Option.none⟩ mTest 3
     "KEY-1" rfl (by decide)).1⟩

/-- C6: check_license reports License has expired exactly when the current
time is strictly greater than the expiry date of the validated data, and a
license whose expiry equals the current instant is treated as valid: the
comparison is a strict greater-than. -/
theorem C6_expiry_strict_comparison (data : PyVal) (m : Machine) (now : Nat)
    (s : String) (expiry : Nat)
    (h1 : pyGet data "expiry_date" = some (.str s))
    (h2 : parseNatChars s.data = some expiry) :
    ((check_data data m now = .ok (false, "License has expired")) ↔
      now > expiry) ∧
    (∀ t m2, check_data (mock_license_data t) m2 (t + 365) =
      .ok (true, "License is valid")) := by
  constructor
  · have hget : pyGetItem data "expiry_date" = .ok (.str s) := by
      simp [pyGetItem, h1]
    have hiso : fromisoformat (.str s) = .ok expiry := by
      simp [fromisoformat, h2]
    simp only [check_data, hget, hiso]
    by_cases hgt : now > expiry
    · rw [if_pos hgt]
      exact ⟨fun _ => hgt, fun _ => rfl⟩
    · rw [if_neg hgt]
      constructor
      · intro h
        have hsig : get_hardware_signature m = .error (.nameError "json") := rfl
        cases htr : pyTruthy ((pyGet data "hardware_bound").getD (.bool false))
        · simp [htr] at h
        · simp [htr, hsig] at h
      · intro h
        exact absurd h hgt
  · intro t m2
    exact check_data_mock t m2 (t + 365) le_rfl

set_option maxRecDepth 1000000 in
theorem C6_witness :
    pyGet (mock_license_data 0) "expiry_date" =
      some (.str (isoformat 365)) ∧
    parseNatChars (isoformat 365).data = some 365 ∧
    ((check_data (mock_license_data 0) mTest 400 =
      .ok (false, "License has expired")) ↔ 400 > 365) :=
  ⟨rfl, parseNatChars_decRepr 365,
   (C6_expiry_strict_comparison (mock_license_data 0) mTest 400
     (isoformat 365) 365 rfl (parseNatChars_decRepr 365)).1⟩

/-- C7: generate_license at the inputs of the end-to-end scenario cannot
return the claimed record: its hardware_signature entry calls
_get_hardware_signature, whose get_hardware_id() call raises NameError
because json is not imported in hardware.py, so the whole call raises. -/
theorem C7_generate_license_raises (secretEnv : Option String) (m : Machine)
    (now : Nat) (u : String) :
    generate_license secretEnv m now u "Acme" "a@acme.com" 30 1 Option.none =
      .error (.nameError "json") :=
  rfl

set_option maxRecDepth 1000000 in
/-- C8: signing is deterministic; it ignores any present signature field,
both for a record carrying one and for a freshly signed record; it equals
the digest of the sorted-key serialization of the other fields concatenated
with the shared secret or its insecure default; and mutating only
customer_name of a concrete record changes the signature. -/
theorem C8_sign_license_roundtrip :
    (∀ secretEnv R, sign_license secretEnv R = sign_license secretEnv R) ∧
    (∀ secretEnv kvs, sign_license secretEnv (.dict kvs) =
      sign_license secretEnv (.dict (dictPop kvs "signature"))) ∧
    (∀ secretEnv kvs s,
      sign_license secretEnv (dictSet (.dict kvs) "signature" s) =
        sign_license secretEnv (.dict kvs)) ∧
    (∀ secretEnv kvs, sign_license secretEnv (.dict kvs) =
      sha256Hex (jsonDumps (.dict (dictPop kvs "signature")) ++
        secretEnv.getD "your-secret-key-here")) ∧
    sign_license Option.none sign_record_a ≠
      sign_license Option.none sign_record_b := by
  refine ⟨fun _ _ => rfl, ?_, ?_, fun _ _ => rfl, ?_⟩
  · intro se kvs
    simp only [sign_license, dictPop, filter_idem]
  · intro se kvs s
    simp [sign_license, dictSet, dictPop, List.filter_append, List.filter_cons]
  · decide

/-- C9: check_license never lets an exception escape: on every state it
returns a plain pair, the LicenseError clause surfaces the error message,
and the generic clause surfaces the formatted descriptive message. -/
theorem C9_no_exception_escapes (mgr : LicenseManager) (m : Machine)
    (now : Nat) :
    (∃ r, check_license mgr m now = .ok r) ∧
    (∀ msg, check_handler (.licenseError msg) = .ok (false, msg)) ∧
    (∀ e, isLicErr e = false →
      check_handler e = .ok (false, "Error checking license: " ++ pyErrStr e)) := by
  refine ⟨?_, fun _ => rfl, ?_⟩
  · match hk : mgr.license_key with
    | Option.none =>
      exact ⟨(false, "No license key provided"), by simp [check_license, hk]⟩
    | some k =>
      by_cases hke : k = ""
      · exact ⟨(false, "No license key provided"),
          by simp [check_license, hk, hke]⟩
      · cases hb : check_body k m now with
        | ok r =>
          exact ⟨r, by simp [check_license, hk, if_neg hke, tryCatchPy, hb]⟩
        | error e =>
          obtain ⟨r, hr⟩ := check_handler_ok e
          exact ⟨r, by simp [check_license, hk, if_neg hke, tryCatchPy, hb, hr]⟩
  · intro e he
    cases e <;> first | rfl | simp [isLicErr] at he

theorem C9_witness :
    (∃ r, check_license ⟨Option.none, Option.none⟩ mTest 0 = .ok r) ∧
    isLicErr (.nameError "json") = false ∧
    check_handler (.nameError "json") =
      .ok (false, "Error checking license: " ++ pyErrStr (.nameError "json")) :=
  ⟨(C9_no_exception_escapes ⟨Option.none, Option.none⟩ mTest 0).1, rfl,
   (C9_no_exception_escapes ⟨Option.none, Option.none⟩ mTest 0).2.2 _ rfl⟩

/-- C10: a manager built with no key argument and no LICENSE_KEY in the
environment resolves to no key, and check_license on it fails closed with
exactly (false, No license key provided). -/
theorem C10_no_key_fail_closed (now : Nat) (m : Machine) (now2 : Nat) :
    initLicenseManager Option.none Option.none now =
      .ok ⟨Option.none, Option.none⟩ ∧
    check_license ⟨Option.none, Option.none⟩ m now2 =
      .ok (false, "No license key provided") :=
  ⟨rfl, rfl⟩
